import Mathlib

/-!
Formal model of the recurring-event generator of `server.py`
(`relationship_manager_project`).

The code under study is the event-creation loop of the request handler
`method_specification_success` (server.py, lines 234-282), together with the
category-to-code mapping of `contact_added` (lines 183-214).

Date arithmetic: the handler uses `arrow`'s legacy relative `replace`
(`months=+n`, `years=+n`), which delegates to `dateutil.relativedelta`:
the year/month are advanced and the day is clamped to the last day of the
target month.  All datetimes in one run share the same time of day (they are
all derived from the single `created_at` by year/month shifts), so arrow's
timestamp comparison `start_date < yr_from_now` reduces to lexicographic
comparison of (year, month, day).  Dates are therefore modelled as plain
(year, month, day) triples of naturals.

The `while` loop of the handler is modelled with explicit fuel: `none` means
the fuel was exhausted while the loop condition still held, so a result that
is `none` for every fuel models a non-terminating run.
-/

set_option autoImplicit false

/-- A calendar date (year, month, day); the time-of-day component of the
source's datetimes is constant across one run and never observed. -/
structure Date where
  year : Nat
  month : Nat
  day : Nat
deriving DecidableEq, Repr

/-- Gregorian leap-year test, as in `calendar.isleap` /
`dateutil`'s day clamping. -/
def isLeap (y : Nat) : Bool :=
  (y % 4 == 0 && y % 100 != 0) || (y % 400 == 0)

/-- Number of days of month `m` of year `y`. -/
def daysInMonth (y m : Nat) : Nat :=
  if m == 2 then (if isLeap y then 29 else 28)
  else if m == 4 || m == 6 || m == 9 || m == 11 then 30
  else 31

/-- `arrow`'s legacy `d.replace(months=+n)` (dateutil `relativedelta`):
advance by `n` calendar months, clamping the day to the length of the
target month. -/
def addMonths (d : Date) (n : Nat) : Date :=
  { year := d.year + (d.month - 1 + n) / 12,
    month := (d.month - 1 + n) % 12 + 1,
    day := min d.day
      (daysInMonth (d.year + (d.month - 1 + n) / 12) ((d.month - 1 + n) % 12 + 1)) }

/-- `arrow`'s legacy `d.replace(years=+n)`: advance the year, clamping the
day to the length of the target month (Feb 29 → Feb 28). -/
def addYears (d : Date) (n : Nat) : Date :=
  { year := d.year + n,
    month := d.month,
    day := min d.day (daysInMonth (d.year + n) d.month) }

/-- Arrow's `<` on the datetimes of one run: lexicographic on
(year, month, day). -/
def Date.ltb (a b : Date) : Bool :=
  decide (a.year < b.year ∨ (a.year = b.year ∧
    (a.month < b.month ∨ (a.month = b.month ∧ a.day < b.day))))

/-- Arrow's `≤` on the datetimes of one run: lexicographic on
(year, month, day). -/
def Date.leb (a b : Date) : Bool :=
  decide (a.year < b.year ∨ (a.year = b.year ∧
    (a.month < b.month ∨ (a.month = b.month ∧ a.day ≤ b.day))))

/-- An `Event` row as constructed by the handler
(`Event(user_id=..., relatp_id=..., rcmdn=..., scheduled_at=...)`). -/
structure Event where
  user_id : Nat
  relatp_id : Nat
  rcmdn : String
  scheduled_at : Date
deriving DecidableEq, Repr

/-- Default `Event` used only as the out-of-range value of `List.getD`. -/
def defaultEvent : Event := ⟨0, 0, "", ⟨0, 0, 0⟩⟩

/-- The inner `for desired_item in desired_list` body of
`method_specification_success` (server.py lines 262-276): for each desired
item, add one event scheduled at the current `start_date`, then advance
`start_date` by 1 month when `relatp_type` is `'fr'` or `'fam'` and by
4 months otherwise.  Returns the events added and the final `start_date`. -/
def innerPass : Nat → Nat → String → List String → Date → List Event × Date
  | _, _, _, [], start_date => ([], start_date)
  | user_id, relatp_id, relatp_type, desired_item :: rest, start_date =>
    if relatp_type == "fr" || relatp_type == "fam" then
      let p := innerPass user_id relatp_id relatp_type rest (addMonths start_date 1)
      (⟨user_id, relatp_id, desired_item, start_date⟩ :: p.1, p.2)
    else
      let p := innerPass user_id relatp_id relatp_type rest (addMonths start_date 4)
      (⟨user_id, relatp_id, desired_item, start_date⟩ :: p.1, p.2)

/-- The `while start_date < yr_from_now` loop of
`method_specification_success` (server.py line 260), with explicit fuel:
`none` means the fuel ran out while the loop condition still held. -/
def eventLoop : Nat → Nat → Nat → String → List String → Date → Date → Option (List Event)
  | 0, _, _, _, _, start_date, yr_from_now =>
    if Date.ltb start_date yr_from_now then none else some []
  | fuel + 1, user_id, relatp_id, relatp_type, desired_list, start_date, yr_from_now =>
    if Date.ltb start_date yr_from_now then
      match eventLoop fuel user_id relatp_id relatp_type desired_list
          (innerPass user_id relatp_id relatp_type desired_list start_date).2 yr_from_now with
      | none => none
      | some rest =>
        some ((innerPass user_id relatp_id relatp_type desired_list start_date).1 ++ rest)
    else some []

/-- The event-generation core of the handler `method_specification_success`
(server.py lines 234-282): `start_date = created_at + 1 month`,
`yr_from_now = start_date + 1 year`, then the while loop above. -/
def method_specification_success (fuel : Nat) (user_id relatp_id : Nat)
    (relatp_type : String) (desired_list : List String) (created_at : Date) :
    Option (List Event) :=
  eventLoop fuel user_id relatp_id relatp_type desired_list
    (addMonths created_at 1) (addYears (addMonths created_at 1) 1)

/-- The category-to-code mapping of `contact_added` (server.py lines
191-199): `'friend' ↦ 'fr'`, `'family' ↦ 'fam'`, everything else `↦ 'prf'`. -/
def contact_added_relatp_type (relatp : String) : String :=
  if relatp == "friend" then "fr"
  else if relatp == "family" then "fam"
  else "prf"

/-- Modelled from the spec: the handler's fetch of the relationship's stored
creation timestamp (the ORM layer `model.py` is not among the sources).  Per
the spec's error-handling design, a missing or invalid creation timestamp
surfaces an InputError to the caller and generation is aborted for that
relationship; with a valid timestamp the generation core runs. -/
def method_specification_handler (fuel : Nat) (user_id relatp_id : Nat)
    (relatp_type : String) (desired_list : List String)
    (created_at : Option Date) : Except String (Option (List Event)) :=
  match created_at with
  | none => Except.error "InputError"
  | some d =>
    Except.ok (method_specification_success fuel user_id relatp_id relatp_type desired_list d)

/-- Step size of the generator as a function of the relationship code:
1 month for `'fr'`/`'fam'`, 4 months otherwise (server.py lines 264-276). -/
def stepOf (relatp_type : String) : Nat :=
  if relatp_type == "fr" || relatp_type == "fam" then 1 else 4

/-- One date advance of the generator. -/
def stepDate (relatp_type : String) (d : Date) : Date :=
  addMonths d (stepOf relatp_type)

lemma stepOf_pos (relatp_type : String) : 1 ≤ stepOf relatp_type := by
  unfold stepOf
  split
  · exact Nat.le_refl 1
  · exact Nat.le_of_lt (by decide)

lemma ltb_addMonths (d : Date) (n : Nat) (h : 1 ≤ n) :
    Date.ltb d (addMonths d n) = true := by
  simp only [Date.ltb, addMonths, decide_eq_true_eq]
  rcases Nat.eq_zero_or_pos ((d.month - 1 + n) / 12) with h0 | h0
  · right
    refine ⟨by omega, Or.inl ?_⟩
    have hlt : d.month - 1 + n < 12 := by
      by_contra hge
      have : 1 ≤ (d.month - 1 + n) / 12 := (Nat.one_le_div_iff (by omega)).mpr (by omega)
      omega
    have : (d.month - 1 + n) % 12 = d.month - 1 + n := Nat.mod_eq_of_lt hlt
    omega
  · left; omega

lemma ltb_addYears (d : Date) (n : Nat) (h : 1 ≤ n) :
    Date.ltb d (addYears d n) = true := by
  simp only [Date.ltb, addYears, decide_eq_true_eq]
  left; omega

lemma ltb_trans {a b c : Date} (h1 : Date.ltb a b = true) (h2 : Date.ltb b c = true) :
    Date.ltb a c = true := by
  simp only [Date.ltb, decide_eq_true_eq] at h1 h2 ⊢
  omega

lemma leb_refl (a : Date) : Date.leb a a = true := by
  simp [Date.leb]

lemma leb_ltb_trans {a b c : Date} (h1 : Date.leb a b = true) (h2 : Date.ltb b c = true) :
    Date.leb a c = true := by
  simp only [Date.leb, Date.ltb, decide_eq_true_eq] at h1 h2 ⊢
  omega

lemma ltb_stepDate (relatp_type : String) (d : Date) :
    Date.ltb d (stepDate relatp_type d) = true :=
  ltb_addMonths d (stepOf relatp_type) (stepOf_pos relatp_type)

lemma leb_iterate_stepDate (relatp_type : String) (j : Nat) (d : Date) :
    Date.leb d ((stepDate relatp_type)^[j] d) = true := by
  induction j with
  | zero => simpa using leb_refl d
  | succ j ih =>
    rw [Function.iterate_succ_apply']
    exact leb_ltb_trans ih (ltb_stepDate relatp_type ((stepDate relatp_type)^[j] d))

lemma ltb_iterate_stepDate_of_lt (relatp_type : String) {i j : Nat} (d : Date)
    (hij : i < j) :
    Date.ltb ((stepDate relatp_type)^[i] d) ((stepDate relatp_type)^[j] d) = true := by
  induction j with
  | zero => omega
  | succ j ih =>
    rw [Function.iterate_succ_apply']
    rcases Nat.lt_or_ge i j with hlt | hge
    · exact ltb_trans (ih hlt) (ltb_stepDate relatp_type ((stepDate relatp_type)^[j] d))
    · have : i = j := by omega
      subst this
      exact ltb_stepDate relatp_type ((stepDate relatp_type)^[i] d)

lemma eventLoop_nil_none (fuel : Nat) (user_id relatp_id : Nat) (relatp_type : String)
    (start_date yr_from_now : Date) (h : Date.ltb start_date yr_from_now = true) :
    eventLoop fuel user_id relatp_id relatp_type [] start_date yr_from_now = none := by
  induction fuel with
  | zero => simp [eventLoop, h]
  | succ fuel ih => simp [eventLoop, h, innerPass, ih]

lemma innerPass_length (user_id relatp_id : Nat) (relatp_type : String)
    (desired_list : List String) (start_date : Date) :
    (innerPass user_id relatp_id relatp_type desired_list start_date).1.length =
      desired_list.length := by
  induction desired_list generalizing start_date with
  | nil => rfl
  | cons a l ih =>
    cases hc : (relatp_type == "fr" || relatp_type == "fam") with
    | false => simp [innerPass, hc, ih]
    | true => simp [innerPass, hc, ih]

lemma innerPass_snd (user_id relatp_id : Nat) (relatp_type : String)
    (desired_list : List String) (start_date : Date) :
    (innerPass user_id relatp_id relatp_type desired_list start_date).2 =
      (stepDate relatp_type)^[desired_list.length] start_date := by
  induction desired_list generalizing start_date with
  | nil => rfl
  | cons a l ih =>
    cases hc : (relatp_type == "fr" || relatp_type == "fam") with
    | false =>
      rw [List.length_cons, Function.iterate_succ_apply]
      have hs : stepDate relatp_type start_date = addMonths start_date 4 := by
        simp [stepDate, stepOf, hc]
      simp only [innerPass, hc, Bool.false_eq_true, if_false]
      rw [ih, hs]
    | true =>
      rw [List.length_cons, Function.iterate_succ_apply]
      have hs : stepDate relatp_type start_date = addMonths start_date 1 := by
        simp [stepDate, stepOf, hc]
      simp only [innerPass, hc, if_true]
      rw [ih, hs]

lemma innerPass_getD (user_id relatp_id : Nat) (relatp_type : String)
    (desired_list : List String) (start_date : Date) (j : Nat)
    (hj : j < desired_list.length) :
    (innerPass user_id relatp_id relatp_type desired_list start_date).1.getD j defaultEvent =
      ⟨user_id, relatp_id, desired_list.getD j "",
        (stepDate relatp_type)^[j] start_date⟩ := by
  induction desired_list generalizing start_date j with
  | nil => simp at hj
  | cons a l ih =>
    cases hc : (relatp_type == "fr" || relatp_type == "fam") with
    | false =>
      have hs : stepDate relatp_type start_date = addMonths start_date 4 := by
        simp [stepDate, stepOf, hc]
      simp only [innerPass, hc, Bool.false_eq_true, if_false]
      cases j with
      | zero => simp
      | succ j =>
        have hj2 : j < l.length := by simpa using hj
        simp only [List.getD_cons_succ]
        rw [ih (addMonths start_date 4) j hj2, Function.iterate_succ_apply, hs]
    | true =>
      have hs : stepDate relatp_type start_date = addMonths start_date 1 := by
        simp [stepDate, stepOf, hc]
      simp only [innerPass, hc, if_true]
      cases j with
      | zero => simp
      | succ j =>
        have hj2 : j < l.length := by simpa using hj
        simp only [List.getD_cons_succ]
        rw [ih (addMonths start_date 1) j hj2, Function.iterate_succ_apply, hs]

lemma eventLoop_spec (fuel : Nat) (user_id relatp_id : Nat) (relatp_type : String)
    (desired_list : List String) :
    ∀ (start_date yr_from_now : Date) (evs : List Event),
      eventLoop fuel user_id relatp_id relatp_type desired_list start_date yr_from_now =
        some evs →
      ∀ j, j < evs.length →
        evs.getD j defaultEvent =
          ⟨user_id, relatp_id, desired_list.getD (j % desired_list.length) "",
            (stepDate relatp_type)^[j] start_date⟩ ∧
        (j % desired_list.length = 0 →
          Date.ltb ((stepDate relatp_type)^[j] start_date) yr_from_now = true) := by
  induction fuel with
  | zero =>
    intro start_date yr_from_now evs h j hj
    by_cases hcond : Date.ltb start_date yr_from_now = true
    · simp [eventLoop, hcond] at h
    · simp only [eventLoop, hcond, Bool.false_eq_true, if_false, Option.some.injEq] at h
      subst h
      simp at hj
  | succ fuel ih =>
    intro start_date yr_from_now evs h j hj
    by_cases hcond : Date.ltb start_date yr_from_now = true
    · rw [eventLoop, if_pos hcond] at h
      cases hrec : eventLoop fuel user_id relatp_id relatp_type desired_list
          (innerPass user_id relatp_id relatp_type desired_list start_date).2
          yr_from_now with
      | none => rw [hrec] at h; exact absurd h (by simp)
      | some rest =>
        rw [hrec] at h
        simp only [Option.some.injEq] at h
        subst h
        have hplen := innerPass_length user_id relatp_id relatp_type desired_list start_date
        have hsnd := innerPass_snd user_id relatp_id relatp_type desired_list start_date
        by_cases hjk : j < desired_list.length
        · have hjp : j < (innerPass user_id relatp_id relatp_type
              desired_list start_date).1.length := by omega
          rw [List.getD_append _ _ _ _ hjp]
          have hmod : j % desired_list.length = j := Nat.mod_eq_of_lt hjk
          constructor
          · rw [innerPass_getD user_id relatp_id relatp_type desired_list start_date j hjk,
              hmod]
          · intro h0
            have hj0 : j = 0 := by omega
            subst hj0
            simpa using hcond
        · have hge : (innerPass user_id relatp_id relatp_type
              desired_list start_date).1.length ≤ j := by omega
          rw [List.getD_append_right _ _ _ _ hge, hplen]
          have hkj : desired_list.length ≤ j := by omega
          have hrj : j - desired_list.length < rest.length := by
            have := List.length_append
              (innerPass user_id relatp_id relatp_type desired_list start_date).1 rest
            rw [this, hplen] at hj
            omega
          have hih := ih (innerPass user_id relatp_id relatp_type
              desired_list start_date).2 yr_from_now rest hrec
              (j - desired_list.length) hrj
          rw [hsnd] at hih
          have hiter : (stepDate relatp_type)^[j - desired_list.length]
              ((stepDate relatp_type)^[desired_list.length] start_date) =
                (stepDate relatp_type)^[j] start_date := by
            rw [← Function.iterate_add_apply]
            congr 1
            omega
          rw [hiter] at hih
          have hmod : (j - desired_list.length) % desired_list.length =
              j % desired_list.length := (Nat.mod_eq_sub_mod hkj).symm
          rw [hmod] at hih
          exact hih
    · rw [eventLoop, if_neg hcond] at h
      simp only [Option.some.injEq] at h
      subst h
      simp at hj

lemma innerPass_eq_prf (user_id relatp_id : Nat) (relatp_type : String)
    (desired_list : List String) (start_date : Date)
    (h1 : relatp_type ≠ "fr") (h2 : relatp_type ≠ "fam") :
    innerPass user_id relatp_id relatp_type desired_list start_date =
      innerPass user_id relatp_id "prf" desired_list start_date := by
  induction desired_list generalizing start_date with
  | nil => rfl
  | cons a l ih =>
    have hc : (relatp_type == "fr" || relatp_type == "fam") = false := by
      simp only [Bool.or_eq_false_iff, beq_eq_false_iff_ne, ne_eq]
      exact ⟨h1, h2⟩
    have hc2 : (("prf" : String) == "fr" || ("prf" : String) == "fam") = false := by decide
    simp only [innerPass, hc, hc2, Bool.false_eq_true, if_false]
    rw [ih]

lemma eventLoop_eq_prf (fuel : Nat) (user_id relatp_id : Nat) (relatp_type : String)
    (desired_list : List String) (h1 : relatp_type ≠ "fr") (h2 : relatp_type ≠ "fam") :
    ∀ start_date yr_from_now : Date,
      eventLoop fuel user_id relatp_id relatp_type desired_list start_date yr_from_now =
        eventLoop fuel user_id relatp_id "prf" desired_list start_date yr_from_now := by
  induction fuel with
  | zero => intro start_date yr_from_now; rfl
  | succ fuel ih =>
    intro start_date yr_from_now
    simp only [eventLoop]
    rw [innerPass_eq_prf user_id relatp_id relatp_type desired_list start_date h1 h2,
      ih (innerPass user_id relatp_id "prf" desired_list start_date).2 yr_from_now]

lemma method_specification_success_eq_prf (fuel : Nat) (user_id relatp_id : Nat)
    (relatp_type : String) (desired_list : List String) (created_at : Date)
    (h1 : relatp_type ≠ "fr") (h2 : relatp_type ≠ "fam") :
    method_specification_success fuel user_id relatp_id relatp_type desired_list created_at =
      method_specification_success fuel user_id relatp_id "prf" desired_list created_at := by
  unfold method_specification_success
  exact eventLoop_eq_prf fuel user_id relatp_id relatp_type desired_list h1 h2 _ _

/-- Claim C6 (confirmed): for `created_at` = 2024-01-15, category
professional, methods `["call"]`, the generator produces exactly 3 events,
dated 2024-02-15, 2024-06-15 and 2024-10-15. -/
theorem professional_single_method_run :
    method_specification_success 30 1 2 (contact_added_relatp_type "professional")
        ["call"] ⟨2024, 1, 15⟩ =
      some [⟨1, 2, "call", ⟨2024, 2, 15⟩⟩, ⟨1, 2, "call", ⟨2024, 6, 15⟩⟩,
        ⟨1, 2, "call", ⟨2024, 10, 15⟩⟩] := by decide

/-- Claim C1, counterexample: for `created_at` = 2024-01-15, category friend
(`'fr'`), methods `["call", "email"]`, the first two emitted events do NOT
share a date: the date advances after every single event, not after each
method group as the claim states. -/
theorem grouped_emission_cex :
    (method_specification_success 30 1 2 "fr" ["call", "email"] ⟨2024, 1, 15⟩).map
        (fun evs => evs.map (fun e => (e.rcmdn, e.scheduled_at))) =
      some [("call", ⟨2024, 2, 15⟩), ("email", ⟨2024, 3, 15⟩),
        ("call", ⟨2024, 4, 15⟩), ("email", ⟨2024, 5, 15⟩),
        ("call", ⟨2024, 6, 15⟩), ("email", ⟨2024, 7, 15⟩),
        ("call", ⟨2024, 8, 15⟩), ("email", ⟨2024, 9, 15⟩),
        ("call", ⟨2024, 10, 15⟩), ("email", ⟨2024, 11, 15⟩),
        ("call", ⟨2024, 12, 15⟩), ("email", ⟨2025, 1, 15⟩)] ∧
      (⟨2024, 3, 15⟩ : Date) ≠ ⟨2024, 2, 15⟩ := by decide

/-- Claim C2, counterexample: for `created_at` = 2024-01-15, category
professional, methods `["call", "email"]`, the fourth emitted event is dated
2025-02-15 = `created_at + 13 months`, which is NOT strictly below the end
bound: the loop condition is only checked between passes, so events after
the first one of a pass may land at or past the bound. -/
theorem window_upper_bound_cex :
    (method_specification_success 30 1 2 "prf" ["call", "email"] ⟨2024, 1, 15⟩).map
        (fun evs => evs.map Event.scheduled_at) =
      some [⟨2024, 2, 15⟩, ⟨2024, 6, 15⟩, ⟨2024, 10, 15⟩, ⟨2025, 2, 15⟩] ∧
      Date.ltb ⟨2025, 2, 15⟩ (addYears (addMonths ⟨2024, 1, 15⟩ 1) 1) = false := by decide

/-- Claim C5, counterexample: for `created_at` = 2024-01-15, category friend,
methods `["call", "email"]`, the generator does not produce 24 events (it
produces 12, one per month, alternating the two methods). -/
theorem friend_two_methods_count_cex :
    ¬ (method_specification_success 30 1 2 (contact_added_relatp_type "friend")
          ["call", "email"] ⟨2024, 1, 15⟩).map List.length = some 24 := by decide

/-- Claim C5 (amended): for `created_at` = 2024-01-15, category friend,
methods `["call", "email"]`, the generator produces exactly 12 events, one
per month from 2024-02-15 through 2025-01-15, the two methods alternating in
input order (the date advances after each event, so each method occurs every
other month rather than monthly). -/
theorem friend_two_methods_run :
    method_specification_success 30 1 2 (contact_added_relatp_type "friend")
        ["call", "email"] ⟨2024, 1, 15⟩ =
      some [⟨1, 2, "call", ⟨2024, 2, 15⟩⟩, ⟨1, 2, "email", ⟨2024, 3, 15⟩⟩,
        ⟨1, 2, "call", ⟨2024, 4, 15⟩⟩, ⟨1, 2, "email", ⟨2024, 5, 15⟩⟩,
        ⟨1, 2, "call", ⟨2024, 6, 15⟩⟩, ⟨1, 2, "email", ⟨2024, 7, 15⟩⟩,
        ⟨1, 2, "call", ⟨2024, 8, 15⟩⟩, ⟨1, 2, "email", ⟨2024, 9, 15⟩⟩,
        ⟨1, 2, "call", ⟨2024, 10, 15⟩⟩, ⟨1, 2, "email", ⟨2024, 11, 15⟩⟩,
        ⟨1, 2, "call", ⟨2024, 12, 15⟩⟩, ⟨1, 2, "email", ⟨2025, 1, 15⟩⟩] := by decide

/-- Claim C7, counterexample: an unrecognized category (`"xyz"`) is NOT
surfaced as an InputError: the handler succeeds and produces the
professional-cadence events (the code's `else` branch treats every code
other than `'fr'`/`'fam'` as professional). -/
theorem unrecognized_category_no_error_cex :
    method_specification_handler 30 1 2 "xyz" ["call"] (some ⟨2024, 1, 15⟩) =
      Except.ok (some [⟨1, 2, "call", ⟨2024, 2, 15⟩⟩, ⟨1, 2, "call", ⟨2024, 6, 15⟩⟩,
        ⟨1, 2, "call", ⟨2024, 10, 15⟩⟩]) := by rfl

/-- Claim C8 (confirmed): every date advance of the generator — the start
date (`+1` month), the end bound (`+1` year) and every loop step — applies
one deterministic end-of-month policy: the day is clamped to
`min day (daysInMonth target)`, i.e. an advance from a day past the target
month's end lands on the last day of that month.  Instantiated at
`created_at` = 2024-01-31 (category friend, methods `["call"]`): the start
date clamps to 2024-02-29, the end bound clamps to 2025-02-28, and all 12
generated events consistently carry day 29 (the day first clamped at the
February advance). -/
theorem end_of_month_rollover_policy :
    (∀ (d : Date) (n : Nat),
        (addMonths d n).day =
          min d.day (daysInMonth (addMonths d n).year (addMonths d n).month)) ∧
    (∀ (d : Date) (n : Nat),
        (addYears d n).day = min d.day (daysInMonth (d.year + n) d.month)) ∧
    addMonths ⟨2024, 1, 31⟩ 1 = ⟨2024, 2, 29⟩ ∧
    addYears ⟨2024, 2, 29⟩ 1 = ⟨2025, 2, 28⟩ ∧
    method_specification_success 30 1 2 "fr" ["call"] ⟨2024, 1, 31⟩ =
      some [⟨1, 2, "call", ⟨2024, 2, 29⟩⟩, ⟨1, 2, "call", ⟨2024, 3, 29⟩⟩,
        ⟨1, 2, "call", ⟨2024, 4, 29⟩⟩, ⟨1, 2, "call", ⟨2024, 5, 29⟩⟩,
        ⟨1, 2, "call", ⟨2024, 6, 29⟩⟩, ⟨1, 2, "call", ⟨2024, 7, 29⟩⟩,
        ⟨1, 2, "call", ⟨2024, 8, 29⟩⟩, ⟨1, 2, "call", ⟨2024, 9, 29⟩⟩,
        ⟨1, 2, "call", ⟨2024, 10, 29⟩⟩, ⟨1, 2, "call", ⟨2024, 11, 29⟩⟩,
        ⟨1, 2, "call", ⟨2024, 12, 29⟩⟩, ⟨1, 2, "call", ⟨2025, 1, 29⟩⟩] :=
  ⟨fun _ _ => rfl, fun _ _ => rfl, by decide, by decide, by decide⟩

/-- Claim C1 (amended): at each pass while the current date is below the end
bound, the generator emits one event per method in input order, but advances
the current date by the step size (1 month for `'fr'`/`'fam'`, 4 months
otherwise) after EVERY individual event, not after each method group.
Consequently the `j`-th emitted event carries method
`methods[j mod |methods|]` and is dated `j` steps after
`created_at + 1 month`; consecutive events (not groups) are exactly one step
apart, and each method recurs every `|methods|` steps. -/
theorem event_stepping_formula (fuel user_id relatp_id : Nat) (relatp_type : String)
    (desired_list : List String) (created_at : Date) (evs : List Event) (j : Nat)
    (h : method_specification_success fuel user_id relatp_id relatp_type
        desired_list created_at = some evs)
    (hj : j < evs.length) :
    evs.getD j defaultEvent =
      ⟨user_id, relatp_id, desired_list.getD (j % desired_list.length) "",
        (stepDate relatp_type)^[j] (addMonths created_at 1)⟩ :=
  (eventLoop_spec fuel user_id relatp_id relatp_type desired_list
    (addMonths created_at 1) (addYears (addMonths created_at 1) 1) evs h j hj).1

/-- Witness for `event_stepping_formula` at a concrete input. -/
theorem event_stepping_formula_witness :
    ([⟨1, 2, "call", ⟨2024, 2, 15⟩⟩, ⟨1, 2, "call", ⟨2024, 6, 15⟩⟩,
        ⟨1, 2, "call", ⟨2024, 10, 15⟩⟩] : List Event).getD 2 defaultEvent =
      ⟨1, 2, (["call"] : List String).getD (2 % (["call"] : List String).length) "",
        (stepDate "prf")^[2] (addMonths ⟨2024, 1, 15⟩ 1)⟩ :=
  event_stepping_formula 30 1 2 "prf" ["call"] ⟨2024, 1, 15⟩
    [⟨1, 2, "call", ⟨2024, 2, 15⟩⟩, ⟨1, 2, "call", ⟨2024, 6, 15⟩⟩,
      ⟨1, 2, "call", ⟨2024, 10, 15⟩⟩] 2 (by decide) (by decide)

/-- Claim C2 (amended): every generated event is dated at or after
`created_at + 1 month` (the lower bound of the claim holds), and every
event emitted at the start of a loop pass — index divisible by the number
of methods, hence every event when there is a single method — is dated
strictly before `created_at + 13 months`.  Events later in a pass may be
dated at or past that bound, because the loop condition is only re-checked
between passes. -/
theorem window_bounds (fuel user_id relatp_id : Nat) (relatp_type : String)
    (desired_list : List String) (created_at : Date) (evs : List Event) (j : Nat)
    (h : method_specification_success fuel user_id relatp_id relatp_type
        desired_list created_at = some evs)
    (hj : j < evs.length) :
    Date.leb (addMonths created_at 1) (evs.getD j defaultEvent).scheduled_at = true ∧
    (j % desired_list.length = 0 →
      Date.ltb (evs.getD j defaultEvent).scheduled_at
        (addYears (addMonths created_at 1) 1) = true) := by
  have hspec := eventLoop_spec fuel user_id relatp_id relatp_type desired_list
    (addMonths created_at 1) (addYears (addMonths created_at 1) 1) evs h j hj
  have hdate : (evs.getD j defaultEvent).scheduled_at =
      (stepDate relatp_type)^[j] (addMonths created_at 1) := by
    rw [hspec.1]
  rw [hdate]
  exact ⟨leb_iterate_stepDate relatp_type j (addMonths created_at 1), hspec.2⟩

/-- Witness for `window_bounds` at a concrete input. -/
theorem window_bounds_witness :
    Date.leb (addMonths ⟨2024, 1, 15⟩ 1)
        (([⟨1, 2, "call", ⟨2024, 2, 15⟩⟩, ⟨1, 2, "call", ⟨2024, 6, 15⟩⟩,
            ⟨1, 2, "call", ⟨2024, 10, 15⟩⟩] : List Event).getD 2
          defaultEvent).scheduled_at = true ∧
      (2 % (["call"] : List String).length = 0 →
        Date.ltb (([⟨1, 2, "call", ⟨2024, 2, 15⟩⟩, ⟨1, 2, "call", ⟨2024, 6, 15⟩⟩,
              ⟨1, 2, "call", ⟨2024, 10, 15⟩⟩] : List Event).getD 2
            defaultEvent).scheduled_at
          (addYears (addMonths ⟨2024, 1, 15⟩ 1) 1) = true) :=
  window_bounds 30 1 2 "prf" ["call"] ⟨2024, 1, 15⟩
    [⟨1, 2, "call", ⟨2024, 2, 15⟩⟩, ⟨1, 2, "call", ⟨2024, 6, 15⟩⟩,
      ⟨1, 2, "call", ⟨2024, 10, 15⟩⟩] 2 (by decide) (by decide)

/-- Claim C3 (code bug, modelling the divergence): with an empty methods
list the `while` loop never terminates — the `for` body never runs, so
`start_date` never advances and the loop condition
`start_date < yr_from_now` stays true forever.  In the fuel model this
reads: for EVERY fuel, every category and every creation date, the run is
still unfinished (`none`); it never returns the empty event sequence the
claim describes. -/
theorem empty_methods_nonterminating (fuel user_id relatp_id : Nat)
    (relatp_type : String) (created_at : Date) :
    method_specification_success fuel user_id relatp_id relatp_type [] created_at =
      none := by
  unfold method_specification_success
  exact eventLoop_nil_none fuel user_id relatp_id relatp_type _ _
    (ltb_addYears (addMonths created_at 1) 1 (Nat.le_refl 1))

/-- Claim C4 (code bug, modelling the divergence): the generation loop does
NOT terminate on every input: at the concrete failing input
(`created_at` = 2024-03-10, professional, empty methods list) no amount of
fuel completes the loop, because `start_date` never advances. -/
theorem generation_loop_not_total :
    ∀ fuel : Nat,
      method_specification_success fuel 7 9 "prf" [] ⟨2024, 3, 10⟩ = none := by
  intro fuel
  unfold method_specification_success
  exact eventLoop_nil_none fuel 7 9 "prf" _ _ (by decide)

/-- Claim C7 (amended): a missing creation timestamp aborts generation with
an InputError surfaced to the caller (timestamp fetch modelled from the
spec, `model.py` being outside the sources); but an unrecognized category is
NOT an error: the handler succeeds and behaves exactly as for the
professional code `'prf'`. -/
theorem missing_timestamp_errors_category_does_not (fuel user_id relatp_id : Nat)
    (relatp_type : String) (desired_list : List String) (d : Date)
    (h1 : relatp_type ≠ "fr") (h2 : relatp_type ≠ "fam") :
    method_specification_handler fuel user_id relatp_id relatp_type desired_list none =
      Except.error "InputError" ∧
    method_specification_handler fuel user_id relatp_id relatp_type desired_list (some d) =
      method_specification_handler fuel user_id relatp_id "prf" desired_list (some d) := by
  constructor
  · rfl
  · simp only [method_specification_handler]
    rw [method_specification_success_eq_prf fuel user_id relatp_id relatp_type
      desired_list d h1 h2]

/-- Witness for `missing_timestamp_errors_category_does_not` at a concrete
input. -/
theorem missing_timestamp_errors_category_does_not_witness :
    method_specification_handler 12 3 4 "xyz" ["email"] none =
      Except.error "InputError" ∧
    method_specification_handler 12 3 4 "xyz" ["email"] (some ⟨2024, 5, 20⟩) =
      method_specification_handler 12 3 4 "prf" ["email"] (some ⟨2024, 5, 20⟩) :=
  missing_timestamp_errors_category_does_not 12 3 4 "xyz" ["email"] ⟨2024, 5, 20⟩
    (by decide) (by decide)

/-- Claim C9 (confirmed): `contact_added` maps every relationship string
other than `"friend"` and `"family"` to the professional code `"prf"`, and
the generator treats every `relatp_type` other than `'fr'` and `'fam'`
exactly as the professional code: it produces the same event sequence with
the 4-month step and raises no error. -/
theorem unrecognized_category_professional (fuel user_id relatp_id : Nat)
    (relatp relatp_type : String) (desired_list : List String) (created_at : Date)
    (hr1 : relatp ≠ "friend") (hr2 : relatp ≠ "family")
    (h1 : relatp_type ≠ "fr") (h2 : relatp_type ≠ "fam") :
    contact_added_relatp_type relatp = "prf" ∧
    method_specification_success fuel user_id relatp_id relatp_type
        desired_list created_at =
      method_specification_success fuel user_id relatp_id "prf"
        desired_list created_at := by
  constructor
  · have c1 : (relatp == "friend") = false := by
      simp only [beq_eq_false_iff_ne, ne_eq]; exact hr1
    have c2 : (relatp == "family") = false := by
      simp only [beq_eq_false_iff_ne, ne_eq]; exact hr2
    simp [contact_added_relatp_type, c1, c2]
  · exact method_specification_success_eq_prf fuel user_id relatp_id relatp_type
      desired_list created_at h1 h2

/-- Witness for `unrecognized_category_professional` at a concrete input. -/
theorem unrecognized_category_professional_witness :
    contact_added_relatp_type "colleague" = "prf" ∧
    method_specification_success 12 1 2 "mentor" ["call"] ⟨2024, 1, 15⟩ =
      method_specification_success 12 1 2 "prf" ["call"] ⟨2024, 1, 15⟩ :=
  unrecognized_category_professional 12 1 2 "colleague" "mentor" ["call"] ⟨2024, 1, 15⟩
    (by decide) (by decide) (by decide) (by decide)

/-- Claim C10 (confirmed): the scheduled dates of the emitted events are
strictly increasing over the whole output sequence — every event is dated
strictly later than each earlier one, so no two generated events of a
relationship share a scheduled date (the date advances by at least one
calendar month after every single event). -/
theorem strictly_increasing_dates (fuel user_id relatp_id : Nat)
    (relatp_type : String) (desired_list : List String) (created_at : Date)
    (evs : List Event) (i j : Nat)
    (h : method_specification_success fuel user_id relatp_id relatp_type
        desired_list created_at = some evs)
    (hij : i < j) (hj : j < evs.length) :
    Date.ltb (evs.getD i defaultEvent).scheduled_at
      (evs.getD j defaultEvent).scheduled_at = true := by
  have hi : i < evs.length := Nat.lt_trans hij hj
  have hsi := (eventLoop_spec fuel user_id relatp_id relatp_type desired_list
    (addMonths created_at 1) (addYears (addMonths created_at 1) 1) evs h i hi).1
  have hsj := (eventLoop_spec fuel user_id relatp_id relatp_type desired_list
    (addMonths created_at 1) (addYears (addMonths created_at 1) 1) evs h j hj).1
  have h1 : (evs.getD i defaultEvent).scheduled_at =
      (stepDate relatp_type)^[i] (addMonths created_at 1) := by rw [hsi]
  have h2 : (evs.getD j defaultEvent).scheduled_at =
      (stepDate relatp_type)^[j] (addMonths created_at 1) := by rw [hsj]
  rw [h1, h2]
  exact ltb_iterate_stepDate_of_lt relatp_type (addMonths created_at 1) hij

/-- Witness for `strictly_increasing_dates` at a concrete input. -/
theorem strictly_increasing_dates_witness :
    Date.ltb (([⟨5, 6, "text", ⟨2023, 6, 1⟩⟩, ⟨5, 6, "text", ⟨2023, 7, 1⟩⟩,
          ⟨5, 6, "text", ⟨2023, 8, 1⟩⟩, ⟨5, 6, "text", ⟨2023, 9, 1⟩⟩,
          ⟨5, 6, "text", ⟨2023, 10, 1⟩⟩, ⟨5, 6, "text", ⟨2023, 11, 1⟩⟩,
          ⟨5, 6, "text", ⟨2023, 12, 1⟩⟩, ⟨5, 6, "text", ⟨2024, 1, 1⟩⟩,
          ⟨5, 6, "text", ⟨2024, 2, 1⟩⟩, ⟨5, 6, "text", ⟨2024, 3, 1⟩⟩,
          ⟨5, 6, "text", ⟨2024, 4, 1⟩⟩, ⟨5, 6, "text", ⟨2024, 5, 1⟩⟩] : List Event).getD 0
        defaultEvent).scheduled_at
      (([⟨5, 6, "text", ⟨2023, 6, 1⟩⟩, ⟨5, 6, "text", ⟨2023, 7, 1⟩⟩,
          ⟨5, 6, "text", ⟨2023, 8, 1⟩⟩, ⟨5, 6, "text", ⟨2023, 9, 1⟩⟩,
          ⟨5, 6, "text", ⟨2023, 10, 1⟩⟩, ⟨5, 6, "text", ⟨2023, 11, 1⟩⟩,
          ⟨5, 6, "text", ⟨2023, 12, 1⟩⟩, ⟨5, 6, "text", ⟨2024, 1, 1⟩⟩,
          ⟨5, 6, "text", ⟨2024, 2, 1⟩⟩, ⟨5, 6, "text", ⟨2024, 3, 1⟩⟩,
          ⟨5, 6, "text", ⟨2024, 4, 1⟩⟩, ⟨5, 6, "text", ⟨2024, 5, 1⟩⟩] : List Event).getD 11
        defaultEvent).scheduled_at = true :=
  strictly_increasing_dates 30 5 6 "fam" ["text"] ⟨2023, 5, 1⟩
    [⟨5, 6, "text", ⟨2023, 6, 1⟩⟩, ⟨5, 6, "text", ⟨2023, 7, 1⟩⟩,
      ⟨5, 6, "text", ⟨2023, 8, 1⟩⟩, ⟨5, 6, "text", ⟨2023, 9, 1⟩⟩,
      ⟨5, 6, "text", ⟨2023, 10, 1⟩⟩, ⟨5, 6, "text", ⟨2023, 11, 1⟩⟩,
      ⟨5, 6, "text", ⟨2023, 12, 1⟩⟩, ⟨5, 6, "text", ⟨2024, 1, 1⟩⟩,
      ⟨5, 6, "text", ⟨2024, 2, 1⟩⟩, ⟨5, 6, "text", ⟨2024, 3, 1⟩⟩,
      ⟨5, 6, "text", ⟨2024, 4, 1⟩⟩, ⟨5, 6, "text", ⟨2024, 5, 1⟩⟩] 0 11
    (by decide) (by decide) (by decide)
